import Mathlib

set_option maxRecDepth 100000

/-!
Shallow embedding of the `autoblog` Cloudflare-Worker pipeline
(`worker/src/rss-parser.ts`, `worker/src/ai-summarizer.ts`,
`worker/src/kv-storage.ts`, `worker/src/github-publisher.ts`) and proofs of
the specification's testable properties against it.

Strings are modelled as `List Char` (`Chars`); effects (HTTP, KV, the AI
backend, clocks) are modelled as explicit oracle arguments; thrown
exceptions are modelled with `Except`/`Option` results.
-/

namespace Autoblog

/-- A string viewed as its character list; all of the worker's regex-style
text processing is modelled over this type. -/
abbrev Chars := List Char

/-! ## Generic text-scanning primitives

These model the behaviour of the JavaScript regex operations the worker
uses: leftmost-first matching of literal patterns and of
`literal (captured)* literal` shapes. -/

/-- Splits `s` at the first (leftmost) occurrence of the literal pattern
`pat`: returns the part strictly before the occurrence and the part
strictly after it. `none` when `pat` does not occur. -/
def splitFirst (pat : Chars) : Chars → Option (Chars × Chars)
  | [] => if pat = [] then some ([], []) else none
  | c :: rest =>
    if pat.isPrefixOf (c :: rest) then some ([], (c :: rest).drop pat.length)
    else (splitFirst pat rest).map (fun p => (c :: p.1, p.2))

/-- `true` iff the literal pattern `pat` occurs somewhere in `s`. -/
def containsSub (pat s : Chars) : Bool := (splitFirst pat s).isSome

/-! ## `rss-parser.ts`: slug utilities -/

/-- Characters kept verbatim by the slug regex `[^a-z0-9]+` (after
lower-casing): ASCII lower-case letters and digits. -/
def isSlugChar (c : Char) : Bool :=
  ('a' ≤ c && c ≤ 'z') || ('0' ≤ c && c ≤ '9')

/-- One pass of `.replace(/[^a-z0-9]+/g, '-')`: every maximal run of
non-slug characters becomes a single hyphen.  The flag records whether the
previous character was part of such a run. -/
def collapseNonSlug : Bool → Chars → Chars
  | _, [] => []
  | inRun, c :: rest =>
    if isSlugChar c then c :: collapseNonSlug false rest
    else if inRun then collapseNonSlug true rest
    else '-' :: collapseNonSlug true rest

/-- `.replace(/^-+|-+$/g, '')`: strip leading and trailing hyphens. -/
def stripEdgeHyphens (s : Chars) : Chars :=
  ((s.dropWhile (· = '-')).reverse.dropWhile (· = '-')).reverse

/-- `generateSlug` (rss-parser.ts:215): lower-case the title, replace each
run of non-alphanumeric characters by one hyphen, strip edge hyphens. -/
def generateSlug (title : String) : String :=
  String.mk (stripEdgeHyphens (collapseNonSlug false (title.data.map Char.toLower)))

/-- The literal part of the regex `/blog\.cloudflare\.com\/([^/]+)/` in
`extractSlugFromUrl` (rss-parser.ts:228). -/
def cfHostPrefix : Chars := "blog.cloudflare.com/".data

/-- Leftmost match of `/blog\.cloudflare\.com\/([^/]+)/`: at each position
in turn, the literal host prefix must match and at least one non-`/`
character must follow; the capture is the maximal run of non-`/`
characters. -/
def extractSlugCapture : Chars → Option Chars
  | [] => none
  | c :: rest =>
    if cfHostPrefix.isPrefixOf (c :: rest) then
      let cap := ((c :: rest).drop cfHostPrefix.length).takeWhile (· ≠ '/')
      if cap = [] then extractSlugCapture rest else some cap
    else extractSlugCapture rest

/-- `match[1].replace(/\/$/, '')`: drop one trailing slash. -/
def dropTrailingSlash (s : Chars) : Chars :=
  match s.reverse with
  | '/' :: r => r.reverse
  | _ => s

/-- `extractSlugFromUrl` (rss-parser.ts:227): capture of the regex above
with a trailing slash dropped, or `""` when the regex does not match. -/
def extractSlugFromUrl (url : String) : String :=
  match extractSlugCapture url.data with
  | some cap => String.mk (dropTrailingSlash cap)
  | none => ""

/-! ## `rss-parser.ts`: feed parsing -/

/-- `BlogPost` (types.ts): one parsed RSS item. -/
structure BlogPost where
  title : String
  link : String
  guid : String
  pubDate : String
  description : String
  content : String
  categories : List String
  authors : List String
deriving DecidableEq, Repr

/-- Leftmost match of `openPat (captured)*? closePat`: first occurrence of
`openPat`, then the capture runs to the first occurrence of `closePat`
after it.  (When the first `openPat` has no `closePat` after it, no later
start position can have one either, so the regex fails — both return
`none`.) -/
def captureBetween (openPat closePat s : Chars) : Option Chars :=
  match splitFirst openPat s with
  | none => none
  | some (_, rest) =>
    match splitFirst closePat rest with
    | none => none
    | some (cap, _) => some cap

/-- All matches of the global regex `openPat (captured)*? closePat`,
scanning left to right, each search resuming after the previous match.
The fuel argument bounds the recursion; `s.length` always suffices. -/
def captureAllBetween (openPat closePat : Chars) : Nat → Chars → List Chars
  | 0, _ => []
  | fuel + 1, s =>
    match splitFirst openPat s with
    | none => []
    | some (_, rest) =>
      match splitFirst closePat rest with
      | none => []
      | some (cap, rest2) => cap :: captureAllBetween openPat closePat fuel rest2

/-- `extractCDATA` (rss-parser.ts:114): single non-greedy match of
`<tag><![CDATA[(.*?)]]></tag>`, or `""`. -/
def extractCDATA (xml tag : Chars) : Chars :=
  match captureBetween (('<' :: tag) ++ "><![CDATA[".data) ("]]></".data ++ tag ++ ['>']) xml with
  | some cap => cap
  | none => []

/-- Body of `<tag[^>]*>`: after the literal `<tag`, the greedy `[^>]*`
runs to the first `>`, and the returned list starts right after that `>`
(`none` when no `>` follows). -/
def afterOpenTag (tag s : Chars) : Option Chars :=
  match splitFirst ('<' :: tag) s with
  | none => none
  | some (_, rest) =>
    match rest.dropWhile (· ≠ '>') with
    | [] => none
    | _ :: body => some body

/-- `extractText` (rss-parser.ts:126): single non-greedy match of
`<tag[^>]*>(.*?)</tag>`, or `""`. -/
def extractText (xml tag : Chars) : Chars :=
  match afterOpenTag tag xml with
  | none => []
  | some body =>
    match splitFirst ("</".data ++ tag ++ ['>']) body with
    | none => []
    | some (cap, _) => cap

/-- All matches of the global regex `<tag[^>]*>(.*?)</tag>`. -/
def captureAllText (tag : Chars) : Nat → Chars → List Chars
  | 0, _ => []
  | fuel + 1, s =>
    match afterOpenTag tag s with
    | none => []
    | some body =>
      match splitFirst ("</".data ++ tag ++ ['>']) body with
      | none => []
      | some (cap, rest2) => cap :: captureAllText tag fuel rest2

/-- `extractMultiple` (rss-parser.ts:138): all CDATA-wrapped matches of the
tag; when there are none, all plain-text matches (never both). -/
def extractMultiple (xml tag : Chars) : List Chars :=
  let cdata := captureAllBetween (('<' :: tag) ++ "><![CDATA[".data)
    ("]]></".data ++ tag ++ ['>']) xml.length xml
  if cdata ≠ [] then cdata else captureAllText tag xml.length xml

/-- Numeric value of a decimal digit string. -/
def decVal (ds : Chars) : Nat := ds.foldl (fun a c => a * 10 + (c.toNat - '0'.toNat)) 0

/-- Numeric value of one hexadecimal digit. -/
def hexDigitVal (c : Char) : Nat :=
  if c.isDigit then c.toNat - '0'.toNat
  else if 'a' ≤ c && c ≤ 'f' then c.toNat - 'a'.toNat + 10
  else c.toNat - 'A'.toNat + 10

/-- Numeric value of a hexadecimal digit string. -/
def hexVal (ds : Chars) : Nat := ds.foldl (fun a c => a * 16 + hexDigitVal c) 0

/-- Is `c` one of `[0-9A-Fa-f]`? -/
def isHexDigit (c : Char) : Bool :=
  c.isDigit || ('a' ≤ c && c ≤ 'f') || ('A' ≤ c && c ≤ 'F')

/-- `String.fromCharCode`: the argument is taken modulo 2^16 (UTF-16 code
unit). -/
def fromCharCode (n : Nat) : Char := Char.ofNat (n % 65536)

/-- Global replace of `/&#(\d+);/g` by `String.fromCharCode(parseInt(dec))`.
Fuel-based scan; `s.length` suffices since each step consumes a character. -/
def decodeDecEntities : Nat → Chars → Chars
  | 0, s => s
  | fuel + 1, s =>
    match s with
    | '&' :: '#' :: rest =>
      let ds := rest.takeWhile (·.isDigit)
      match ds, rest.dropWhile (·.isDigit) with
      | _ :: _, ';' :: tail => fromCharCode (decVal ds) :: decodeDecEntities fuel tail
      | _, _ => '&' :: decodeDecEntities fuel ('#' :: rest)
    | c :: rest => c :: decodeDecEntities fuel rest
    | [] => []

/-- Global replace of `/&#x([0-9A-Fa-f]+);/g`. -/
def decodeHexEntities : Nat → Chars → Chars
  | 0, s => s
  | fuel + 1, s =>
    match s with
    | '&' :: '#' :: 'x' :: rest =>
      let ds := rest.takeWhile isHexDigit
      match ds, rest.dropWhile isHexDigit with
      | _ :: _, ';' :: tail => fromCharCode (hexVal ds) :: decodeHexEntities fuel tail
      | _, _ => '&' :: decodeHexEntities fuel ('#' :: 'x' :: rest)
    | c :: rest => c :: decodeHexEntities fuel rest
    | [] => []

/-- Global replacement of a literal pattern (the named-entity strings
contain no regex metacharacters). -/
def replaceAllLit (pat rep : Chars) : Nat → Chars → Chars
  | 0, s => s
  | fuel + 1, s =>
    match splitFirst pat s with
    | none => s
    | some (pre, post) => pre ++ rep ++ replaceAllLit pat rep fuel post

/-- The named-entity table of `decodeHTMLEntities` (rss-parser.ts:169), in
object-literal insertion order. -/
def namedEntities : List (Chars × Char) :=
  [("&amp;".data, '&'), ("&lt;".data, '<'), ("&gt;".data, '>'),
   ("&quot;".data, '"'), ("&apos;".data, '\''), ("&nbsp;".data, ' '),
   ("&eacute;".data, 'é'), ("&egrave;".data, 'è'), ("&ecirc;".data, 'ê'),
   ("&euml;".data, 'ë'), ("&agrave;".data, 'à'), ("&acirc;".data, 'â'),
   ("&auml;".data, 'ä'), ("&ocirc;".data, 'ô'), ("&ouml;".data, 'ö'),
   ("&icirc;".data, 'î'), ("&iuml;".data, 'ï'), ("&ccedil;".data, 'ç'),
   ("&ntilde;".data, 'ñ'), ("&uuml;".data, 'ü'), ("&ucirc;".data, 'û'),
   ("&ugrave;".data, 'ù')]

/-- `decodeHTMLEntities` (rss-parser.ts:159): decimal entities, then hex
entities, then each named entity in table order (each pass runs over the
result of the previous one, as the sequential `replace` calls do). -/
def decodeHTMLEntities (text : Chars) : Chars :=
  let t1 := decodeDecEntities text.length text
  let t2 := decodeHexEntities t1.length t1
  namedEntities.foldl (fun t p => replaceAllLit p.1 [p.2] t.length t) t2

/-- `text.trim()`: strip whitespace from both ends. -/
def jsTrim (s : Chars) : Chars :=
  ((s.dropWhile (·.isWhitespace)).reverse.dropWhile (·.isWhitespace)).reverse

/-- Global replace of `/\n\s*/g` by a single space: each newline and the
whitespace run after it become one space. -/
def collapseNewlineRuns : Nat → Chars → Chars
  | 0, s => s
  | fuel + 1, s =>
    match s with
    | '\n' :: rest => ' ' :: collapseNewlineRuns fuel (rest.dropWhile (·.isWhitespace))
    | c :: rest => c :: collapseNewlineRuns fuel rest
    | [] => []

/-- `cleanText` (rss-parser.ts:206): trim, collapse newline-led whitespace
runs, decode entities. -/
def cleanText (text : Chars) : Chars :=
  let t := jsTrim text
  decodeHTMLEntities (collapseNewlineRuns t.length t)

/-- `cleanText` packaged as a `String` producer. -/
def cleanTextS (text : Chars) : String := String.mk (cleanText text)

/-- `parseRSSItem` (rss-parser.ts:80): extract each field, reject the item
when `title`, `link` or `guid` is empty (JS falsy), else build the record
with every field cleaned.  The thrown error is modelled as `Except.error`. -/
def parseRSSItem (itemXml : Chars) : Except String BlogPost :=
  let title := extractCDATA itemXml "title".data
  let link := extractText itemXml "link".data
  let guid := extractText itemXml "guid".data
  let pubDate := extractText itemXml "pubDate".data
  let description := extractCDATA itemXml "description".data
  let content := extractCDATA itemXml "content:encoded".data
  let categories := extractMultiple itemXml "category".data
  let authors := extractMultiple itemXml "dc:creator".data
  if title = [] || link = [] || guid = [] then
    .error "Missing required fields in RSS item"
  else
    .ok { title := cleanTextS title
          link := cleanTextS link
          guid := cleanTextS guid
          pubDate := cleanTextS pubDate
          description := cleanTextS description
          content := cleanTextS content
          categories := categories.map cleanTextS
          authors := authors.map cleanTextS }

/-- The item blocks of a feed document: all matches of the global
non-greedy regex `/<item>([\s\S]*?)<\/item>/g`. -/
def extractItemBlocks (xmlText : Chars) : List Chars :=
  captureAllBetween "<item>".data "</item>".data xmlText.length xmlText

/-- `parseRSSFeed` (rss-parser.ts:51): parse each item block independently;
a failing block is skipped (its exception is caught) and never aborts the
batch.  Total — no exception escapes. -/
def parseRSSFeed (xmlText : Chars) : List BlogPost :=
  (extractItemBlocks xmlText).filterMap (fun itemXml => (parseRSSItem itemXml).toOption)

/-- A JavaScript number as produced by `parseInt`: an integer or `NaN`. -/
inductive JSNum where
  | nan : JSNum
  | int : Int → JSNum
deriving DecidableEq, Repr

/-- JS truthiness of a number: `NaN` and `0` are falsy. -/
def JSNum.truthy : JSNum → Bool
  | .nan => false
  | .int n => n != 0

/-- `xs.slice(0, m)` for a JS number `m`: `NaN` converts to `0`; a negative
`m` counts from the end. -/
def jsSliceTo (xs : List α) : JSNum → List α
  | .nan => []
  | .int n => if n < 0 then xs.take (xs.length - n.natAbs) else xs.take n.toNat

/-- `parseInt(s, 10)`: skip leading whitespace, optional sign, then leading
decimal digits; `NaN` when no digit is found. -/
def parseIntJS (s : String) : JSNum :=
  let t := s.data.dropWhile (·.isWhitespace)
  let (sign, t2) : Int × Chars :=
    match t with
    | '-' :: r => (-1, r)
    | '+' :: r => (1, r)
    | r => (1, r)
  let ds := t2.takeWhile (·.isDigit)
  if ds = [] then .nan else .int (sign * (decVal ds : Int))

/-- `fetchBlogPosts` (rss-parser.ts:18): the HTTP outcome is the oracle
`fetchResult` (`.error` = non-2xx or transport failure, re-thrown); on
success the document is parsed and the result truncated only when
`maxPosts` is truthy. -/
def fetchBlogPosts (fetchResult : Except String String) (maxPosts : JSNum) :
    Except String (List BlogPost) :=
  match fetchResult with
  | .error e => .error e
  | .ok xmlText =>
    let posts := parseRSSFeed xmlText.data
    .ok (if maxPosts.truthy then jsSliceTo posts maxPosts else posts)

/-- A three-item feed document whose second item is malformed (it has no
`guid` element); items one and three are well-formed. -/
def feedDoc3 : String :=
  "<rss><channel><item><title><![CDATA[Post One]]></title><link>https://blog.cloudflare.com/post-one/</link><guid>guid-1</guid><pubDate>Mon, 01 Jan 2024</pubDate><description><![CDATA[d1]]></description><content:encoded><![CDATA[c1]]></content:encoded><category><![CDATA[net]]></category><dc:creator><![CDATA[Al]]></dc:creator></item><item><title><![CDATA[Post Two]]></title><link>https://blog.cloudflare.com/post-two/</link><pubDate>Tue, 02 Jan 2024</pubDate></item><item><title><![CDATA[Post Three]]></title><link>https://blog.cloudflare.com/post-three/</link><guid>guid-3</guid></item></channel></rss>"

/-- The record the parser extracts from the first item of `feedDoc3`. -/
def post1 : BlogPost :=
  { title := "Post One", link := "https://blog.cloudflare.com/post-one/",
    guid := "guid-1", pubDate := "Mon, 01 Jan 2024", description := "d1",
    content := "c1", categories := ["net"], authors := ["Al"] }

/-- The record the parser extracts from the third item of `feedDoc3`. -/
def post3 : BlogPost :=
  { title := "Post Three", link := "https://blog.cloudflare.com/post-three/",
    guid := "guid-3", pubDate := "", description := "",
    content := "", categories := [], authors := [] }


/-! ## `ai-summarizer.ts` -/

/-- `MAX_RETRIES` (ai-summarizer.ts:9). -/
def MAX_RETRIES : Nat := 3

/-- `RETRY_DELAY_MS` (ai-summarizer.ts:10). -/
def RETRY_DELAY_MS : Nat := 1000

/-- The fixed disclaimer paragraph prepended by `generateSummary`
(ai-summarizer.ts:149). -/
def disclaimerText : String :=
  "**AI-Generated Summary**: This is an automated summary of a Cloudflare blog post created using AI. For the full details and context, please read the original post.\n\n"

/-- Outcome of one `ai.run` call as observed by `generateSummary`: the call
threw, returned an object carrying a `response` field, returned a plain
string, or returned a value of any other shape. -/
inductive AIResult where
  | thrown (msg : String)
  | objWithResponse (s : String)
  | str (s : String)
  | other
deriving DecidableEq, Repr

/-- `jsTrim` packaged on `String`. -/
def jsTrimS (s : String) : String := String.mk (jsTrim s.data)

/-- `summary = disclaimer + summary` when `includeDisclaimer` is set. -/
def applyDisclaimer (includeDisclaimer : Bool) (summary : String) : String :=
  if includeDisclaimer then disclaimerText ++ summary else summary

/-- Validation tail of one attempt: trim, reject when shorter than 50
characters (the empty string has length 0, so the separate `!summary`
falsiness test is subsumed), else prepend the disclaimer on demand. -/
def summaryCheck (s : String) (includeDisclaimer : Bool) : Except String String :=
  let summary := jsTrimS s
  if summary.length < 50 then .error "Generated summary is too short or empty"
  else .ok (applyDisclaimer includeDisclaimer summary)

/-- The body of one retry iteration of `generateSummary`
(ai-summarizer.ts:114-154): shape dispatch on the backend response, then
validation; every failure is the thrown error the `catch` receives. -/
def summaryAttempt (r : AIResult) (includeDisclaimer : Bool) : Except String String :=
  match r with
  | .thrown msg => .error msg
  | .other => .error "Unexpected response format from AI"
  | .objWithResponse s => summaryCheck s includeDisclaimer
  | .str s => summaryCheck s includeDisclaimer

/-- The trimmed summary text of a backend response that passes validation,
`none` for any failing attempt. -/
def validSummaryResponse (r : AIResult) : Option String :=
  match r with
  | .thrown _ => none
  | .other => none
  | .objWithResponse s => if (jsTrimS s).length < 50 then none else some (jsTrimS s)
  | .str s => if (jsTrimS s).length < 50 then none else some (jsTrimS s)

/-- The retry loop of `generateSummary`: `attempt` is the 1-based loop
counter, the fuel is the number of attempts still allowed (the loop runs
while `attempt ≤ MAX_RETRIES`).  Returns the final outcome together with
the list of back-off sleeps (in ms) performed between attempts, in order.
The fuel-0 case is unreachable from `generateSummary`. -/
def generateSummaryFrom (backend : Nat → AIResult) (includeDisclaimer : Bool) :
    Nat → Nat → Except String String × List Nat
  | _, 0 => (.error "", [])
  | attempt, fuel + 1 =>
    match summaryAttempt (backend attempt) includeDisclaimer with
    | .ok s => (.ok s, [])
    | .error e =>
      if fuel = 0 then
        (.error (("Failed to generate summary after " ++ toString MAX_RETRIES ++
          " attempts: ") ++ e), [])
      else
        let tail := generateSummaryFrom backend includeDisclaimer (attempt + 1) fuel
        (tail.1, RETRY_DELAY_MS * attempt :: tail.2)

/-- `generateSummary` (ai-summarizer.ts:103): up to `MAX_RETRIES` attempts
starting at attempt 1.  The AI backend is the oracle `backend`, giving the
outcome of the `ai.run` call of each attempt; `.error` models the thrown
exception after exhaustion.  (The source's `options` default is
`includeDisclaimer = true`; callers that rely on the default pass `true`
here.) -/
def generateSummary (backend : Nat → AIResult) (includeDisclaimer : Bool) :
    Except String String × List Nat :=
  generateSummaryFrom backend includeDisclaimer 1 MAX_RETRIES

/-- The fallback text `generateSummaries` (ai-summarizer.ts:199) pushes for
a post whose `generateSummary` threw. -/
def fallbackSummaryText : String :=
  "**AI-Generated Summary**: Summary generation failed. Please read the original post for full details."

/-- `generateSummaries` (ai-summarizer.ts:182): summarize each post
sequentially; a per-post failure is caught and replaced by the fixed
fallback text, so the output lines up with the input. -/
def generateSummaries (backends : BlogPost → Nat → AIResult) (includeDisclaimer : Bool)
    (posts : List BlogPost) : List String :=
  posts.map (fun post =>
    match (generateSummary (backends post) includeDisclaimer).1 with
    | .ok s => s
    | .error _ => fallbackSummaryText)

/-! ## `kv-storage.ts` -/

/-- `getPostKey` (kv-storage.ts:22). -/
def getPostKey (guid : String) : String := "post:" ++ guid

/-- `isPostProcessed` (kv-storage.ts:32): point read of `post:{guid}`;
`true` iff a value is present; a thrown read error is caught and the
function returns `false` (fail open).  The KV `get` is the oracle
`read`. -/
def isPostProcessed (read : String → Except String (Option String)) (guid : String) : Bool :=
  match read (getPostKey guid) with
  | .ok value => value.isSome
  | .error _ => false

/-- JSON escaping of one character (`JSON.stringify` string rules for the
characters this pipeline produces). -/
def jsonEscapeChar (c : Char) : Chars :=
  if c = '"' then ['\\', '"']
  else if c = '\\' then ['\\', '\\']
  else if c = '\n' then ['\\', 'n']
  else if c = '\r' then ['\\', 'r']
  else if c = '\t' then ['\\', 't']
  else [c]

/-- A JSON string literal for `s`. -/
def jsonStr (s : String) : String :=
  "\"" ++ String.mk (s.data.map jsonEscapeChar).flatten ++ "\""

/-- The metadata argument of `markPostProcessed`
(`Omit<ProcessedPostMetadata, 'processed' | 'timestamp'>`). -/
structure MarkMetadata where
  title : String
  slug : String
  url : String
deriving DecidableEq, Repr

/-- The serialized `ProcessedPostMetadata` value `markPostProcessed` puts:
compact `JSON.stringify` of `\x7b processed: true, timestamp, ...metadata \x7d`
in insertion order. -/
def processedValueJson (now : String) (m : MarkMetadata) : String :=
  "\x7b\"processed\":true,\"timestamp\":" ++ jsonStr now ++
    ",\"title\":" ++ jsonStr m.title ++ ",\"slug\":" ++ jsonStr m.slug ++
    ",\"url\":" ++ jsonStr m.url ++ "\x7d"

/-- `if (ttl) options.expirationTtl = ttl`: the option is set only for a
truthy (non-zero) ttl. -/
def ttlOption : Option Nat → Option Nat
  | some t => if t = 0 then none else some t
  | none => none

/-- `markPostProcessed` (kv-storage.ts:51): build the ledger value with the
write-time timestamp `now`, issue the KV `put` (the oracle), and re-throw
a thrown write error to the caller after logging. -/
def markPostProcessed (put : String → String → Option Nat → Except String Unit)
    (now : String) (guid : String) (metadata : MarkMetadata) (ttl : Option Nat) :
    Except String Unit :=
  match put (getPostKey guid) (processedValueJson now metadata) (ttlOption ttl) with
  | .ok _ => .ok ()
  | .error e => .error e

/-! ## `github-publisher.ts` -/

/-- `BlogPostSummary` (types.ts): the published artifact, fields in
object-literal insertion order. -/
structure BlogPostSummary where
  slug : String
  title : String
  url : String
  publishedAt : String
  summary : String
  authors : List String
  categories : List String
  guid : String
deriving DecidableEq, Repr

/-- `generateSlugForPost` (github-publisher.ts:31): the URL-extracted slug
when truthy (non-empty), else the title-derived slug. -/
def generateSlugForPost (post : BlogPost) : String :=
  let urlSlug := extractSlugFromUrl post.link
  if urlSlug ≠ "" then urlSlug
  else generateSlug post.title

/-- `createBlogPostSummary` (github-publisher.ts:51). -/
def createBlogPostSummary (post : BlogPost) (summary : String) : BlogPostSummary :=
  { slug := generateSlugForPost post
    title := post.title
    url := post.link
    publishedAt := post.pubDate
    summary := summary
    authors := post.authors
    categories := post.categories
    guid := post.guid }

/-- A pretty-printed JSON array of strings at nesting depth given by
`indent`, as `JSON.stringify(·, null, 2)` lays it out. -/
def jsonArrPretty (indent : String) (xs : List String) : String :=
  match xs with
  | [] => "[]"
  | _ => "[\n" ++ String.intercalate ",\n" (xs.map (fun x => indent ++ "  " ++ jsonStr x)) ++
      "\n" ++ indent ++ "]"

/-- `JSON.stringify(postSummary, null, 2)` (github-publisher.ts:120):
pretty-printed artifact JSON, keys in `BlogPostSummary` insertion order. -/
def serializeArtifact (ps : BlogPostSummary) : String :=
  "\x7b\n  \"slug\": " ++ jsonStr ps.slug ++
  ",\n  \"title\": " ++ jsonStr ps.title ++
  ",\n  \"url\": " ++ jsonStr ps.url ++
  ",\n  \"publishedAt\": " ++ jsonStr ps.publishedAt ++
  ",\n  \"summary\": " ++ jsonStr ps.summary ++
  ",\n  \"authors\": " ++ jsonArrPretty "  " ps.authors ++
  ",\n  \"categories\": " ++ jsonArrPretty "  " ps.categories ++
  ",\n  \"guid\": " ++ jsonStr ps.guid ++
  "\n\x7d"

/-- The base64 alphabet. -/
def base64Table : Chars :=
  "ABCDEFGHIJKLMNOPQRSTUVWXYZabcdefghijklmnopqrstuvwxyz0123456789+/".data

/-- The base64 character of a 6-bit value. -/
def base64Char (n : Nat) : Char := base64Table.getD n 'A'

/-- Base64 encoding of a byte list, three bytes to four characters with
`=` padding. -/
def btoaChunks : List Nat → Chars
  | [] => []
  | [b0] => [base64Char (b0 / 4), base64Char (b0 % 4 * 16), '=', '=']
  | [b0, b1] =>
    [base64Char (b0 / 4), base64Char (b0 % 4 * 16 + b1 / 16), base64Char (b1 % 16 * 4), '=']
  | b0 :: b1 :: b2 :: rest =>
    base64Char (b0 / 4) :: base64Char (b0 % 4 * 16 + b1 / 16) ::
      base64Char (b1 % 16 * 4 + b2 / 64) :: base64Char (b2 % 64) :: btoaChunks rest

/-- Does every character of `s` fit in one Latin-1 code unit?  (A code
point above U+FFFF yields two surrogate code units, both above U+00FF, so
checking code points is equivalent to checking UTF-16 code units here.) -/
def isLatin1 (s : String) : Bool := s.data.all (fun c => c.toNat ≤ 255)

/-- The platform `btoa`: base64 of the code units when all are ≤ U+00FF;
`none` models the `InvalidCharacterError` the WHATWG specification
requires for any larger code unit. -/
def btoa (s : String) : Option String :=
  if isLatin1 s then some (String.mk (btoaChunks (s.data.map Char.toNat))) else none

/-- Outcome of the GET in `getFileSha`, as the oracle reports it: a 2xx
response whose body carries `sha`, a non-2xx status, or a thrown fetch
error. -/
inductive GetOutcome where
  | ok (sha : String)
  | status (code : Nat)
  | thrown (msg : String)
deriving DecidableEq, Repr

/-- `getFileSha` (github-publisher.ts:72): `null` on a 404; any other
non-2xx status raises inside the `try` and the `catch` returns `null`; a
thrown fetch error is likewise caught to `null`; only a 2xx response
yields the sha. -/
def getFileSha (get : String → GetOutcome) (filePath : String) : Option String :=
  match get filePath with
  | .ok sha => some sha
  | .status code =>
    if code = 404 then none
    else none
  | .thrown _ => none

/-- The PUT body (github-publisher.ts:124-136): `sha` is present exactly
when the existing sha was truthy. -/
structure PutBody where
  message : String
  content : String
  branch : String
  sha : Option String
deriving DecidableEq, Repr

/-- Outcome of the PUT, as the oracle reports it. -/
inductive PutOutcome where
  | ok
  | status (code : Nat) (body : String)
  | thrown (msg : String)
deriving DecidableEq, Repr

/-- JS truthiness of the nullable sha (an empty string is falsy). -/
def shaTruthy : Option String → Bool
  | none => false
  | some s => s ≠ ""

/-- The commit message ternary (github-publisher.ts:125). -/
def putMessage (existingSha : Option String) (title : String) : String :=
  if shaTruthy existingSha then "chore: update summary for \"" ++ title ++ "\""
  else "feat: add summary for \"" ++ title ++ "\""

/-- The artifact storage path (github-publisher.ts:110). -/
def artifactPath (ps : BlogPostSummary) : String :=
  "site/content/posts/" ++ ps.slug ++ ".json"

/-- The single write request `publishToGitHub` issues: read the current
sha, serialize, base64-encode, and build the body; `none` when `btoa`
threw (then the `catch` returns `false` and no write happens). -/
def publishRequest (get : String → GetOutcome) (ps : BlogPostSummary) :
    Option (String × PutBody) :=
  let filePath := artifactPath ps
  let existingSha := getFileSha get filePath
  let content := serializeArtifact ps
  match btoa content with
  | none => none
  | some base64Content =>
    some (filePath,
      { message := putMessage existingSha ps.title
        content := base64Content
        branch := "main"
        sha := if shaTruthy existingSha then existingSha else none })

/-- `publishToGitHub` (github-publisher.ts:106): `true` iff the issued
write got a 2xx response; a non-2xx response raises inside the `try` and a
thrown error is caught, both returning `false`. -/
def publishToGitHub (get : String → GetOutcome) (put : String → PutBody → PutOutcome)
    (ps : BlogPostSummary) : Bool :=
  match publishRequest get ps with
  | none => false
  | some (path, body) =>
    match put path body with
    | .ok => true
    | .status _ _ => false
    | .thrown _ => false

/-- A model of the repository contents seen by the GitHub API:
path ↦ (blob sha, stored content). -/
def RepoState : Type := String → Option (String × String)

/-- The contents GET against a repository state: 404 when the path is
absent, else 200 with the blob sha. -/
def repoGet (repo : RepoState) (path : String) : GetOutcome :=
  match repo path with
  | some (sha, _) => .ok sha
  | none => .status 404

/-- The contents PUT against a repository state: stores the content at the
path under a fresh sha given by `mkSha`.  (Stale-sha conflict responses
are not modelled; no claim exercises them.) -/
def repoPut (mkSha : String → String) (repo : RepoState) (path : String) (body : PutBody) :
    RepoState :=
  fun p => if p = path then some (mkSha body.content, body.content) else repo p

/-! ## The orchestrator: the `scheduled` handler (index.ts) -/

/-- `GitHubConfig` (github-publisher.ts:12). -/
structure GitHubConfig where
  token : String
  owner : String
  repo : String
deriving DecidableEq, Repr

/-- `createGitHubConfig` (github-publisher.ts:209): default each secret to
`""`, then require all three to be truthy (non-empty). -/
def createGitHubConfig (token owner repo : Option String) : Option GitHubConfig :=
  let t := token.getD ""
  let o := owner.getD ""
  let r := repo.getD ""
  if t ≠ "" && o ≠ "" && r ≠ "" then some ⟨t, o, r⟩ else none

/-- The bindings and variables of `Env` (types.ts) that `scheduled`
consults. -/
structure ScheduledEnv where
  aiPresent : Bool
  kvPresent : Bool
  githubToken : Option String
  githubOwner : Option String
  githubRepo : Option String
  postsToFetch : String
deriving Repr

/-- The run's external collaborators, as oracles: the RSS fetch outcome,
the KV reads and writes, the per-post AI backend (per attempt number), the
GitHub contents GET and PUT, and the write-time clock. -/
structure World where
  fetchResult : Except String String
  kvRead : String → Except String (Option String)
  kvPut : String → String → Option Nat → Except String Unit
  ai : BlogPost → Nat → AIResult
  ghGet : String → GetOutcome
  ghPut : String → PutBody → PutOutcome
  now : String

/-- Observable outcome of processing one record inside the per-item
`try`/`catch` (index.ts:301-335): whether the item counted as a success,
the GitHub write issued (if control reached it), whether that write
succeeded, the ledger write issued (if control reached it), and whether it
succeeded. -/
structure ItemResult where
  succeeded : Bool
  putRequest : Option (String × PutBody)
  putOk : Bool
  markCall : Option (String × String)
  markOk : Bool
deriving DecidableEq, Repr

/-- One iteration of the per-post loop: summarize → build artifact →
publish → mark processed, every thrown error caught at this boundary. -/
def processPost (w : World) (kvPresent : Bool) (post : BlogPost) : ItemResult :=
  match (generateSummary (w.ai post) true).1 with
  | .error _ =>
    -- generateSummary threw after exhausting retries: caught here
    { succeeded := false, putRequest := none, putOk := false, markCall := none, markOk := false }
  | .ok summary =>
    let postSummary := createBlogPostSummary post summary
    let req := publishRequest w.ghGet postSummary
    let published := publishToGitHub w.ghGet w.ghPut postSummary
    if published then
      if kvPresent then
        let meta : MarkMetadata :=
          { title := post.title, slug := postSummary.slug, url := post.link }
        let call := (getPostKey post.guid, processedValueJson w.now meta)
        match markPostProcessed w.kvPut w.now post.guid meta none with
        | .ok _ =>
          { succeeded := true, putRequest := req, putOk := true,
            markCall := some call, markOk := true }
        | .error _ =>
          -- the ledger write threw: caught at this same per-item boundary
          { succeeded := false, putRequest := req, putOk := true,
            markCall := some call, markOk := false }
      else
        { succeeded := true, putRequest := req, putOk := true, markCall := none, markOk := false }
    else
      -- `throw new Error('Failed to publish to GitHub')`, caught here
      { succeeded := false, putRequest := req, putOk := false, markCall := none, markOk := false }

/-- The loop counters and the per-item trace, in processing order. -/
structure LoopState where
  successCount : Nat
  failureCount : Nat
  items : List ItemResult
deriving DecidableEq, Repr

/-- Counters before the loop (index.ts:244-245). -/
def initLoopState : LoopState := { successCount := 0, failureCount := 0, items := [] }

/-- One trip of the `for` loop over the new posts. -/
def loopStep (w : World) (kvPresent : Bool) (st : LoopState) (post : BlogPost) : LoopState :=
  let r := processPost w kvPresent post
  { successCount := st.successCount + (if r.succeeded then 1 else 0)
    failureCount := st.failureCount + (if r.succeeded then 0 else 1)
    items := st.items ++ [r] }

/-- The whole per-post loop (index.ts:297). -/
def processLoop (w : World) (kvPresent : Bool) (posts : List BlogPost) : LoopState :=
  posts.foldl (loopStep w kvPresent) initLoopState

/-- Observable outcome of one scheduled run: the final counters, the
per-item trace, and the fatal error re-thrown by the outer `catch` (if
any). -/
structure RunOutcome where
  successCount : Nat
  failureCount : Nat
  items : List ItemResult
  fatal : Option String
deriving DecidableEq, Repr

/-- A run that aborted before the loop. -/
def fatalOutcome (e : String) : RunOutcome :=
  { successCount := 0, failureCount := 0, items := [], fatal := some e }

/-- The `scheduled` handler (index.ts:238): validate the AI binding and
the GitHub secrets (fatal when missing), fetch and parse the feed with the
configured cap (a fetch failure is fatal and re-thrown), drop records the
ledger already holds when KV is bound (treating all as new otherwise),
then run the per-post loop.  (When no new post remains the handler returns
early; the loop over the empty list leaves the same zero counters.) -/
def scheduled (env : ScheduledEnv) (w : World) : RunOutcome :=
  if env.aiPresent = false then fatalOutcome "Workers AI not configured"
  else
    match createGitHubConfig env.githubToken env.githubOwner env.githubRepo with
    | none => fatalOutcome "GitHub configuration missing (GITHUB_TOKEN, GITHUB_OWNER, GITHUB_REPO)"
    | some _ =>
      match fetchBlogPosts w.fetchResult (parseIntJS env.postsToFetch) with
      | .error e => fatalOutcome e
      | .ok posts =>
        let newPosts :=
          if env.kvPresent then posts.filter (fun post => !(isPostProcessed w.kvRead post.guid))
          else posts
        let st := processLoop w env.kvPresent newPosts
        { successCount := st.successCount, failureCount := st.failureCount,
          items := st.items, fatal := none }

/-! ## Concrete scenarios used by the claims -/

/-- A well-formed three-item feed: items a, b, c in document order. -/
def scenarioFeed : String :=
  "<rss><channel><item><title><![CDATA[Post A]]></title><link>https://blog.cloudflare.com/post-a/</link><guid>guid-a</guid><pubDate>Mon, 01 Jan 2024</pubDate></item><item><title><![CDATA[Post B]]></title><link>https://blog.cloudflare.com/post-b/</link><guid>guid-b</guid><pubDate>Tue, 02 Jan 2024</pubDate></item><item><title><![CDATA[Post C]]></title><link>https://blog.cloudflare.com/post-c/</link><guid>guid-c</guid><pubDate>Wed, 03 Jan 2024</pubDate></item></channel></rss>"

/-- A valid backend response: comfortably longer than the 50-character
threshold. -/
def okSummaryText : String :=
  "This post announces a new feature and explains how developers can adopt it."

/-- Environment with every binding present and a numeric item cap. -/
def envAllSet : ScheduledEnv :=
  { aiPresent := true, kvPresent := true, githubToken := some "t",
    githubOwner := some "o", githubRepo := some "r", postsToFetch := "10" }

/-- World for the per-item isolation scenario: the fetch yields
`scenarioFeed`, nothing is in the ledger, the GitHub store is empty, every
write succeeds — but the AI backend throws on every attempt for the post
with guid `guid-b` and answers validly for the others. -/
def worldItemB : World :=
  { fetchResult := .ok scenarioFeed
    kvRead := fun _ => .ok none
    kvPut := fun _ _ _ => .ok ()
    ai := fun post _ =>
      if post.guid = "guid-b" then .thrown "model unavailable" else .objWithResponse okSummaryText
    ghGet := fun _ => .status 404
    ghPut := fun _ _ => .ok
    now := "2024-01-04T00:00:00.000Z" }

/-- The three records parsed from `scenarioFeed`. -/
def scenarioPosts : List BlogPost := parseRSSFeed scenarioFeed.data

/-- The first record of `scenarioFeed`. -/
def postA : BlogPost :=
  { title := "Post A", link := "https://blog.cloudflare.com/post-a/", guid := "guid-a",
    pubDate := "Mon, 01 Jan 2024", description := "", content := "",
    categories := [], authors := [] }

/-- The second record of `scenarioFeed` (the one whose summarization is
made to fail). -/
def postB : BlogPost :=
  { title := "Post B", link := "https://blog.cloudflare.com/post-b/", guid := "guid-b",
    pubDate := "Tue, 02 Jan 2024", description := "", content := "",
    categories := [], authors := [] }

/-- The third record of `scenarioFeed`. -/
def postC : BlogPost :=
  { title := "Post C", link := "https://blog.cloudflare.com/post-c/", guid := "guid-c",
    pubDate := "Wed, 03 Jan 2024", description := "", content := "",
    categories := [], authors := [] }

/-- An all-empty record, used only as the `getD` default. -/
def defaultPost : BlogPost :=
  { title := "", link := "", guid := "", pubDate := "", description := "", content := "",
    categories := [], authors := [] }

/-- The ledger value written for `postA` in the isolation scenario. -/
def markValueA : String :=
  "\x7b\"processed\":true,\"timestamp\":\"2024-01-04T00:00:00.000Z\",\"title\":\"Post A\",\"slug\":\"post-a\",\"url\":\"https://blog.cloudflare.com/post-a/\"\x7d"

/-- World for the fallback-substitution scenario: a single-post feed whose
summarization always throws; everything else healthy. -/
def worldNoSummary : World :=
  { fetchResult := .ok "<item><title><![CDATA[Post A]]></title><link>https://blog.cloudflare.com/post-a/</link><guid>guid-a</guid></item>"
    kvRead := fun _ => .ok none
    kvPut := fun _ _ _ => .ok ()
    ai := fun _ _ => .thrown "model unavailable"
    ghGet := fun _ => .status 404
    ghPut := fun _ _ => .ok
    now := "2024-01-04T00:00:00.000Z" }

/-- An artifact whose title contains U+2019 (a typographic apostrophe), a
code unit above U+00FF. -/
def psCurly : BlogPostSummary :=
  { slug := "post-a", title := "Cloudflare’s new feature", url := "https://blog.cloudflare.com/post-a/",
    publishedAt := "Mon, 01 Jan 2024", summary := "s", authors := [], categories := [], guid := "guid-a" }

/-- An all-ASCII artifact. -/
def psPlain : BlogPostSummary :=
  { slug := "my-post", title := "My Post", url := "https://blog.cloudflare.com/my-post/",
    publishedAt := "Mon, 01 Jan 2024", summary := "A fine post.", authors := ["Al"],
    categories := ["net"], guid := "guid-1" }

/-- The empty repository. -/
def emptyRepo : RepoState := fun _ => none

/-- A repository that holds every path (with a fixed sha and content). -/
def repoFull : RepoState := fun _ => some ("oldsha", "old")

/-- A contents GET whose fetch always throws (transient network failure). -/
def ghGetDown : String → GetOutcome := fun _ => .thrown "network reset"


/-! ## Helper lemmas -/

/-- The exhaustion message built by `generateSummaryFrom`, with the
`toString MAX_RETRIES` interpolation evaluated. -/
lemma failMsg (e : String) :
    "Failed to generate summary after " ++ (toString (3:Nat) ++ (" attempts: " ++ e)) =
      "Failed to generate summary after 3 attempts: " ++ e := by
  rw [← String.append_assoc, ← String.append_assoc]
  exact congrArg (fun x => x ++ e) (by decide)

/-- A backend response that passes validation makes the attempt succeed
with the (optionally disclaimer-prefixed) trimmed summary. -/
lemma summaryAttempt_of_valid (r : AIResult) (incl : Bool) (t : String)
    (h : validSummaryResponse r = some t) :
    summaryAttempt r incl = .ok (applyDisclaimer incl t) := by
  cases r with
  | thrown msg => simp [validSummaryResponse] at h
  | other => simp [validSummaryResponse] at h
  | objWithResponse s =>
    rcases Nat.lt_or_ge (jsTrimS s).length 50 with hlt | hge
    · simp [validSummaryResponse, hlt] at h
    · have hnl : ¬ (jsTrimS s).length < 50 := Nat.not_lt.mpr hge
      simp only [validSummaryResponse, if_neg hnl, Option.some.injEq] at h
      subst h
      simp [summaryAttempt, summaryCheck, hnl]
  | str s =>
    rcases Nat.lt_or_ge (jsTrimS s).length 50 with hlt | hge
    · simp [validSummaryResponse, hlt] at h
    · have hnl : ¬ (jsTrimS s).length < 50 := Nat.not_lt.mpr hge
      simp only [validSummaryResponse, if_neg hnl, Option.some.injEq] at h
      subst h
      simp [summaryAttempt, summaryCheck, hnl]

/-- A backend response that fails validation makes the attempt throw. -/
lemma summaryAttempt_of_invalid (r : AIResult) (incl : Bool)
    (h : validSummaryResponse r = none) :
    ∃ e, summaryAttempt r incl = .error e := by
  cases r with
  | thrown msg => exact ⟨msg, rfl⟩
  | other => exact ⟨_, rfl⟩
  | objWithResponse s =>
    have hlt : (jsTrimS s).length < 50 := by
      by_contra hnl
      simp [validSummaryResponse, hnl] at h
    exact ⟨"Generated summary is too short or empty", by simp [summaryAttempt, summaryCheck, hlt]⟩
  | str s =>
    have hlt : (jsTrimS s).length < 50 := by
      by_contra hnl
      simp [validSummaryResponse, hnl] at h
    exact ⟨"Generated summary is too short or empty", by simp [summaryAttempt, summaryCheck, hlt]⟩

/-- The three-attempt loop of `generateSummary`, unrolled: the first
successful attempt returns, each failed non-final attempt adds its linear
back-off sleep, and exhaustion wraps the last error. -/
lemma generateSummary_cases (backend : Nat → AIResult) (incl : Bool) :
    generateSummary backend incl =
      match summaryAttempt (backend 1) incl with
      | .ok s => (.ok s, [])
      | .error _ =>
        match summaryAttempt (backend 2) incl with
        | .ok s => (.ok s, [1000])
        | .error _ =>
          match summaryAttempt (backend 3) incl with
          | .ok s => (.ok s, [1000, 2000])
          | .error e =>
            (.error ("Failed to generate summary after 3 attempts: " ++ e), [1000, 2000]) := by
  rcases h1 : summaryAttempt (backend 1) incl with e1 | s1 <;>
    rcases h2 : summaryAttempt (backend 2) incl with e2 | s2 <;>
      rcases h3 : summaryAttempt (backend 3) incl with e3 | s3 <;>
        simp [generateSummary, generateSummaryFrom, h1, h2, h3, RETRY_DELAY_MS, MAX_RETRIES,
          String.append_assoc, failMsg]

/-! ## Claim theorems -/

/-- C4: the summarizer retry contract — the loop consults the backend on
attempts 1..3 only; a response that is missing, malformed, thrown, or
trimmed to fewer than 50 characters fails the attempt; consecutive
attempts are separated by linear back-off sleeps of attempt-index × 1000
ms; exhausting all three attempts throws the wrapped last error (no
substitute text), while the first valid attempt returns its trimmed
summary, disclaimer-prefixed exactly when `includeDisclaimer` is set. -/
theorem generateSummary_retry_contract :
    (∀ (backend backend' : Nat → AIResult) (incl : Bool),
      backend 1 = backend' 1 → backend 2 = backend' 2 → backend 3 = backend' 3 →
      generateSummary backend incl = generateSummary backend' incl) ∧
    (∀ (backend : Nat → AIResult) (incl : Bool),
      validSummaryResponse (backend 1) = none → validSummaryResponse (backend 2) = none →
      validSummaryResponse (backend 3) = none →
      ∃ msg, generateSummary backend incl =
        (.error ("Failed to generate summary after 3 attempts: " ++ msg), [1000, 2000])) ∧
    (∀ (backend : Nat → AIResult) (incl : Bool) (t : String),
      validSummaryResponse (backend 1) = some t →
      generateSummary backend incl = (.ok (applyDisclaimer incl t), [])) ∧
    (∀ (backend : Nat → AIResult) (incl : Bool) (t : String),
      validSummaryResponse (backend 1) = none → validSummaryResponse (backend 2) = some t →
      generateSummary backend incl = (.ok (applyDisclaimer incl t), [1000])) ∧
    (∀ (backend : Nat → AIResult) (incl : Bool) (t : String),
      validSummaryResponse (backend 1) = none → validSummaryResponse (backend 2) = none →
      validSummaryResponse (backend 3) = some t →
      generateSummary backend incl = (.ok (applyDisclaimer incl t), [1000, 2000])) := by
  refine ⟨?_, ?_, ?_, ?_, ?_⟩
  · intro b b' incl h1 h2 h3
    rw [generateSummary_cases, generateSummary_cases, h1, h2, h3]
  · intro b incl h1 h2 h3
    obtain ⟨e1, he1⟩ := summaryAttempt_of_invalid _ incl h1
    obtain ⟨e2, he2⟩ := summaryAttempt_of_invalid _ incl h2
    obtain ⟨e3, he3⟩ := summaryAttempt_of_invalid _ incl h3
    exact ⟨e3, by rw [generateSummary_cases, he1, he2, he3]⟩
  · intro b incl t h1
    rw [generateSummary_cases, summaryAttempt_of_valid _ incl t h1]
  · intro b incl t h1 h2
    obtain ⟨e1, he1⟩ := summaryAttempt_of_invalid _ incl h1
    rw [generateSummary_cases, he1, summaryAttempt_of_valid _ incl t h2]
  · intro b incl t h1 h2 h3
    obtain ⟨e1, he1⟩ := summaryAttempt_of_invalid _ incl h1
    obtain ⟨e2, he2⟩ := summaryAttempt_of_invalid _ incl h2
    rw [generateSummary_cases, he1, he2, summaryAttempt_of_valid _ incl t h3]

/-- C4 witness: a backend that throws on every attempt exhausts the three
retries, sleeps 1000 ms then 2000 ms, and propagates a wrapped error. -/
theorem generateSummary_retry_contract_witness :
    validSummaryResponse (AIResult.thrown "model down") = none ∧
    (∃ msg, generateSummary (fun _ => .thrown "model down") true =
      (.error ("Failed to generate summary after 3 attempts: " ++ msg), [1000, 2000])) :=
  ⟨rfl, generateSummary_retry_contract.2.1 (fun _ => .thrown "model down") true rfl rfl rfl⟩



/-- C7 counterexample: the slug-extraction regex matches only the
`blog.cloudflare.com` host, so on `https://blog.example.com/my-post/` it
yields `""`, not `"my-post"` — the claim's first two examples are false on
the code. -/
theorem extractSlug_example_domain_counterexample :
    extractSlugFromUrl "https://blog.example.com/my-post/" ≠ "my-post" ∧
    extractSlugFromUrl "https://blog.example.com/my-post/" = "" ∧
    extractSlugFromUrl "https://blog.example.com/my-post" ≠ "my-post" ∧
    extractSlugFromUrl "https://blog.example.com/my-post" = "" := by decide

/-- C7 (amended): with the host the code actually matches,
`extractSlugFromUrl` extracts `my-post` with and without a trailing slash,
yields `""` on a foreign host, and the empty result makes
`generateSlugForPost` fall through to the title-derived slug. -/
theorem extractSlug_url_examples :
    extractSlugFromUrl "https://blog.cloudflare.com/my-post/" = "my-post" ∧
    extractSlugFromUrl "https://blog.cloudflare.com/my-post" = "my-post" ∧
    extractSlugFromUrl "https://other.com/x" = "" ∧
    generateSlugForPost
      { title := "Some Title", link := "https://other.com/x", guid := "g",
        pubDate := "", description := "", content := "", categories := [], authors := [] } =
      generateSlug "Some Title" := by decide

/-- C10: a falsy `maxPosts` — the integer `0`, `NaN`, and in particular the
`NaN` that `parseInt` produces from a non-numeric `POSTS_TO_FETCH` — skips
the `slice` entirely, so `fetchBlogPosts` returns every parsed post rather
than zero posts. -/
theorem zero_cap_disables_truncation (xmlText : String) :
    fetchBlogPosts (.ok xmlText) (.int 0) = .ok (parseRSSFeed xmlText.data) ∧
    fetchBlogPosts (.ok xmlText) .nan = .ok (parseRSSFeed xmlText.data) ∧
    parseIntJS "not-a-number" = .nan ∧
    fetchBlogPosts (.ok xmlText) (parseIntJS "not-a-number") = .ok (parseRSSFeed xmlText.data) := by
  refine ⟨?_, ?_, by decide, ?_⟩ <;> simp [fetchBlogPosts, JSNum.truthy, parseIntJS, decVal]

/-- C3: the ledger's failure policy is asymmetric — a thrown KV read makes
`isPostProcessed` answer `false` (fail open), while a thrown KV write makes
`markPostProcessed` re-raise the same error to its caller (fail closed). -/
theorem ledger_fail_open_read_fail_closed_write :
    (∀ (read : String → Except String (Option String)) (guid e : String),
      read (getPostKey guid) = .error e → isPostProcessed read guid = false) ∧
    (∀ (put : String → String → Option Nat → Except String Unit)
      (now guid : String) (m : MarkMetadata) (ttl : Option Nat) (e : String),
      put (getPostKey guid) (processedValueJson now m) (ttlOption ttl) = .error e →
      markPostProcessed put now guid m ttl = .error e) := by
  constructor
  · intro read guid e h
    simp [isPostProcessed, h]
  · intro put now guid m ttl e h
    simp [markPostProcessed, h]

/-- C3 witness: a concrete always-throwing read yields `false`; a concrete
always-throwing write re-raises its error. -/
theorem ledger_fail_policy_witness :
    isPostProcessed (fun _ => .error "kv read failed") "g" = false ∧
    markPostProcessed (fun _ _ _ => .error "kv write failed") "2024-01-01" "g"
      { title := "t", slug := "s", url := "u" } none = .error "kv write failed" :=
  ⟨ledger_fail_open_read_fail_closed_write.1 _ "g" "kv read failed" rfl,
   ledger_fail_open_read_fail_closed_write.2 _ "2024-01-01" "g"
     { title := "t", slug := "s", url := "u" } none "kv write failed" rfl⟩

/-- C9: every failure of the sha read maps to `null` — a thrown fetch error
and every non-2xx status (404 included) — so when the read fails
transiently over a path that the repository does hold, the write that
`publishToGitHub` issues omits the sha and carries the "add" commit
message (a create, not an update). -/
theorem getFileSha_fail_open_creates :
    (∀ (get : String → GetOutcome) (filePath msg : String),
      get filePath = .thrown msg → getFileSha get filePath = none) ∧
    (∀ (get : String → GetOutcome) (filePath : String) (code : Nat),
      get filePath = .status code → getFileSha get filePath = none) ∧
    (∀ (repo : RepoState) (get : String → GetOutcome) (ps : BlogPostSummary)
      (storedSha storedContent : String),
      repo (artifactPath ps) = some (storedSha, storedContent) →
      ((∃ msg, get (artifactPath ps) = .thrown msg) ∨
        (∃ code, get (artifactPath ps) = .status code)) →
      isLatin1 (serializeArtifact ps) = true →
      ∃ body, publishRequest get ps = some (artifactPath ps, body) ∧
        body.sha = none ∧
        body.message = "feat: add summary for \"" ++ ps.title ++ "\"") := by
  refine ⟨?_, ?_, ?_⟩
  · intro get filePath msg h
    simp [getFileSha, h]
  · intro get filePath code h
    simp [getFileSha, h]
  · intro repo get ps storedSha storedContent _hexists hfail hl
    have hsha : getFileSha get (artifactPath ps) = none := by
      rcases hfail with ⟨msg, h⟩ | ⟨code, h⟩ <;> simp [getFileSha, h]
    obtain ⟨enc, henc⟩ : ∃ enc, btoa (serializeArtifact ps) = some enc := by
      simp [btoa, hl]
    refine ⟨⟨putMessage none ps.title, enc, "main", none⟩, ?_, rfl, ?_⟩
    · simp [publishRequest, hsha, henc, shaTruthy]
    · simp [putMessage, shaTruthy]

/-- C9 witness: with every path present in the repository but the sha read
throwing, the issued write is a create — no sha, "add" message. -/
theorem getFileSha_fail_open_creates_witness :
    repoFull (artifactPath psPlain) = some ("oldsha", "old") ∧
    ghGetDown (artifactPath psPlain) = .thrown "network reset" ∧
    isLatin1 (serializeArtifact psPlain) = true ∧
    (∃ body, publishRequest ghGetDown psPlain = some (artifactPath psPlain, body) ∧
      body.sha = none ∧
      body.message = "feat: add summary for \"" ++ psPlain.title ++ "\"") :=
  ⟨rfl, rfl, by decide,
   getFileSha_fail_open_creates.2.2 repoFull ghGetDown psPlain "oldsha" "old" rfl
     (Or.inl ⟨"network reset", rfl⟩) (by decide)⟩


/-- The sequential counter loop decomposes pointwise: the trace is the map
of `processPost` over the posts, and each counter counts its items — one
record's outcome never influences another's. -/
lemma processLoop_eq (w : World) (kv : Bool) (posts : List BlogPost) :
    processLoop w kv posts =
      { successCount := (posts.map (processPost w kv)).countP (fun r => r.succeeded),
        failureCount := (posts.map (processPost w kv)).countP (fun r => !r.succeeded),
        items := posts.map (processPost w kv) } := by
  have main : ∀ (ps : List BlogPost) (st : LoopState),
      ps.foldl (loopStep w kv) st =
        { successCount := st.successCount + (ps.map (processPost w kv)).countP (fun r => r.succeeded),
          failureCount := st.failureCount + (ps.map (processPost w kv)).countP (fun r => !r.succeeded),
          items := st.items ++ ps.map (processPost w kv) } := by
    intro ps
    induction ps with
    | nil => intro st; simp
    | cons p ps ih =>
      intro st
      rw [List.foldl_cons, ih]
      cases h : (processPost w kv p).succeeded <;>
        simp [loopStep, List.countP_cons, h] <;> omega
  rw [processLoop, main, initLoopState]
  simp

/-- `getFileSha` against the repository-state GET: the stored sha, or
`none` for an absent path. -/
lemma getFileSha_repoGet (repo : RepoState) (p : String) :
    getFileSha (repoGet repo) p = (repo p).map (fun f => f.1) := by
  cases h : repo p <;> simp [getFileSha, repoGet, h]

/-- C1: per-item isolation in the orchestrator — whenever the preconditions
pass and the fetch succeeds, the run never aborts: its trace is the
pointwise map of the per-record step over the filtered records, with the
success/failure counters counting each record by its own outcome; and, in
the concrete 3-record scenario where only record 2's summarization
exhausts its retries, the run ends with 2 successes and 1 failure, records
1 and 3 both published and ledger-marked. -/
theorem orchestrator_per_item_isolation :
    (∀ (env : ScheduledEnv) (w : World) (posts : List BlogPost),
      env.aiPresent = true →
      (createGitHubConfig env.githubToken env.githubOwner env.githubRepo).isSome = true →
      fetchBlogPosts w.fetchResult (parseIntJS env.postsToFetch) = .ok posts →
      ∃ results : List ItemResult,
        results = ((if env.kvPresent then
            posts.filter (fun post => !(isPostProcessed w.kvRead post.guid))
          else posts).map (processPost w env.kvPresent)) ∧
        scheduled env w =
          { successCount := results.countP (fun r => r.succeeded),
            failureCount := results.countP (fun r => !r.succeeded),
            items := results, fatal := none }) ∧
    (scenarioPosts = [postA, postB, postC] ∧
     ((generateSummary (worldItemB.ai postB) true).1).isOk = false ∧
     (scheduled envAllSet worldItemB).successCount = 2 ∧
     (scheduled envAllSet worldItemB).failureCount = 1 ∧
     (scheduled envAllSet worldItemB).items.map (fun r => r.putOk) = [true, false, true] ∧
     (scheduled envAllSet worldItemB).items.map (fun r => r.markOk) = [true, false, true] ∧
     (scheduled envAllSet worldItemB).fatal = none) := by
  constructor
  · intro env w posts hai hgh hfetch
    obtain ⟨cfg, hcfg⟩ := Option.isSome_iff_exists.mp hgh
    refine ⟨_, rfl, ?_⟩
    simp [scheduled, hai, hcfg, hfetch, processLoop_eq]
  · refine ⟨by decide, by decide, ?_, ?_, ?_, ?_, ?_⟩ <;> decide

/-- C1 witness: the general decomposition applied to the concrete
isolation scenario. -/
theorem orchestrator_per_item_isolation_witness :
    (envAllSet.aiPresent = true ∧
     (createGitHubConfig envAllSet.githubToken envAllSet.githubOwner
       envAllSet.githubRepo).isSome = true ∧
     fetchBlogPosts worldItemB.fetchResult (parseIntJS envAllSet.postsToFetch) =
       .ok scenarioPosts) ∧
    (∃ results : List ItemResult,
      results = ((if envAllSet.kvPresent then
          scenarioPosts.filter (fun post => !(isPostProcessed worldItemB.kvRead post.guid))
        else scenarioPosts).map (processPost worldItemB envAllSet.kvPresent)) ∧
      scheduled envAllSet worldItemB =
        { successCount := results.countP (fun r => r.succeeded),
          failureCount := results.countP (fun r => !r.succeeded),
          items := results, fatal := none }) :=
  ⟨⟨rfl, rfl, by rfl⟩,
   orchestrator_per_item_isolation.1 envAllSet worldItemB scenarioPosts rfl rfl (by rfl)⟩

/-- C2: no ledger mark without a successful publish — a ledger write is
issued for a record only when its summary succeeded and `publishToGitHub`
returned `true` for its artifact (and then under the record's own guid
key); when the summary throws or the publish returns `false`, no ledger
write is issued; and every item of any run's trace that issued a ledger
write had a successful publish. -/
theorem ledger_mark_only_after_publish :
    (∀ (w : World) (kv : Bool) (post : BlogPost) (key value : String),
      (processPost w kv post).markCall = some (key, value) →
      key = getPostKey post.guid ∧
      ∃ s, (generateSummary (w.ai post) true).1 = .ok s ∧
        publishToGitHub w.ghGet w.ghPut (createBlogPostSummary post s) = true ∧
        (processPost w kv post).putOk = true) ∧
    (∀ (w : World) (kv : Bool) (post : BlogPost),
      ((generateSummary (w.ai post) true).1).isOk = false →
      (processPost w kv post).markCall = none) ∧
    (∀ (w : World) (kv : Bool) (post : BlogPost) (s : String),
      (generateSummary (w.ai post) true).1 = .ok s →
      publishToGitHub w.ghGet w.ghPut (createBlogPostSummary post s) = false →
      (processPost w kv post).markCall = none) ∧
    (∀ (env : ScheduledEnv) (w : World) (r : ItemResult),
      r ∈ (scheduled env w).items → r.markCall.isSome = true → r.putOk = true) := by
  have hmark : ∀ (w : World) (kv : Bool) (post : BlogPost),
      (processPost w kv post).markCall.isSome = true → (processPost w kv post).putOk = true := by
    intro w kv post h
    rcases hg : (generateSummary (w.ai post) true).1 with e | s
    · simp [processPost, hg] at h
    · cases hp : publishToGitHub w.ghGet w.ghPut (createBlogPostSummary post s)
      · simp [processPost, hg, hp] at h
      · cases kv
        · simp [processPost, hg, hp] at h
        · rcases hm : markPostProcessed w.kvPut w.now post.guid
              { title := post.title, slug := (createBlogPostSummary post s).slug,
                url := post.link } none with e' | u <;>
            simp [processPost, hg, hp, hm]
  refine ⟨?_, ?_, ?_, ?_⟩
  · intro w kv post key value h
    rcases hg : (generateSummary (w.ai post) true).1 with e | s
    · simp [processPost, hg] at h
    · cases hp : publishToGitHub w.ghGet w.ghPut (createBlogPostSummary post s)
      · simp [processPost, hg, hp] at h
      · cases kv
        · simp [processPost, hg, hp] at h
        · refine ⟨?_, s, rfl, hp, ?_⟩
          · rcases hm : markPostProcessed w.kvPut w.now post.guid
                { title := post.title, slug := (createBlogPostSummary post s).slug,
                  url := post.link } none with e' | u <;>
              simp [processPost, hg, hp, hm] at h <;> exact h.1.symm
          · exact hmark w true post (by simp [h])
  · intro w kv post h
    rcases hg : (generateSummary (w.ai post) true).1 with e | s
    · simp [processPost, hg]
    · rw [hg] at h
      simp [Except.isOk, Except.toBool] at h
  · intro w kv post s hg hp
    simp [processPost, hg, hp]
  · intro env w r hr hm
    by_cases hai : env.aiPresent = false
    · simp [scheduled, hai, fatalOutcome] at hr
    · have hai' : env.aiPresent = true := by
        cases h : env.aiPresent
        · exact absurd h hai
        · rfl
      rcases hcfg : createGitHubConfig env.githubToken env.githubOwner env.githubRepo with
        _ | cfg
      · simp [scheduled, hai', hcfg, fatalOutcome] at hr
      · rcases hf : fetchBlogPosts w.fetchResult (parseIntJS env.postsToFetch) with e | posts
        · simp [scheduled, hai', hcfg, hf, fatalOutcome] at hr
        · have hitems : (scheduled env w).items =
              ((if env.kvPresent then
                  posts.filter (fun post => !(isPostProcessed w.kvRead post.guid))
                else posts).map (processPost w env.kvPresent)) := by
            simp [scheduled, hai', hcfg, hf, processLoop_eq]
          rw [hitems] at hr
          obtain ⟨post, _hpost, rfl⟩ := List.mem_map.mp hr
          exact hmark w env.kvPresent post hm

/-- C2 witness: record A in the healthy scenario issues its ledger write
under its own guid key, and its publish succeeded. -/
theorem ledger_mark_only_after_publish_witness :
    "post:guid-a" = getPostKey postA.guid ∧
    ∃ s, (generateSummary (worldItemB.ai postA) true).1 = .ok s ∧
      publishToGitHub worldItemB.ghGet worldItemB.ghPut (createBlogPostSummary postA s) = true ∧
      (processPost worldItemB true postA).putOk = true :=
  ledger_mark_only_after_publish.1 worldItemB true postA "post:guid-a" markValueA (by rfl)

/-- C5 counterexample: for an artifact whose serialized JSON contains a
code unit above U+00FF (here a typographic apostrophe in the title),
`btoa` throws, the `catch` returns `false`, and no write is issued at all
— even though the PUT would have succeeded — so the claim's "issues a
single write" fails for this artifact. -/
theorem publish_write_not_issued_counterexample :
    isLatin1 (serializeArtifact psCurly) = false ∧
    publishRequest (repoGet emptyRepo) psCurly = none ∧
    publishToGitHub (repoGet emptyRepo) (fun _ _ => .ok) psCurly = false := by decide

/-- C5 (amended): for every artifact whose serialized JSON is within
`btoa`'s Latin-1 domain, `publishToGitHub` reads the current sha of the
artifact's path, serializes the artifact as pretty-printed JSON
(base64-encoded into the body), and issues a single write that includes
the sha with the "update" message when the path was present (and its sha
truthy), and omits the sha with the "add" message when absent; re-publishing
after a successful create issues an update carrying the now-stored sha. -/
theorem publish_conditional_create_or_update :
    ∀ (repo : RepoState) (mkSha : String → String) (ps : BlogPostSummary),
      isLatin1 (serializeArtifact ps) = true →
      ∃ body : PutBody,
        publishRequest (repoGet repo) ps = some (artifactPath ps, body) ∧
        btoa (serializeArtifact ps) = some body.content ∧
        body.branch = "main" ∧
        (repo (artifactPath ps) = none →
          body.sha = none ∧
          body.message = "feat: add summary for \"" ++ ps.title ++ "\"") ∧
        (∀ sha stored, repo (artifactPath ps) = some (sha, stored) → sha ≠ "" →
          body.sha = some sha ∧
          body.message = "chore: update summary for \"" ++ ps.title ++ "\"") ∧
        (repo (artifactPath ps) = none → mkSha body.content ≠ "" →
          ∃ body2 : PutBody,
            publishRequest (repoGet (repoPut mkSha repo (artifactPath ps) body)) ps =
              some (artifactPath ps, body2) ∧
            body2.sha = some (mkSha body.content) ∧
            body2.message = "chore: update summary for \"" ++ ps.title ++ "\"" ∧
            body2.content = body.content) := by
  intro repo mkSha ps hl
  obtain ⟨enc, henc⟩ : ∃ enc, btoa (serializeArtifact ps) = some enc := by
    simp [btoa, hl]
  refine ⟨⟨putMessage (getFileSha (repoGet repo) (artifactPath ps)) ps.title, enc, "main",
      if shaTruthy (getFileSha (repoGet repo) (artifactPath ps)) then
        getFileSha (repoGet repo) (artifactPath ps) else none⟩, ?_, henc, rfl, ?_, ?_, ?_⟩
  · simp [publishRequest, henc]
  · intro h0
    constructor <;> simp [getFileSha_repoGet, h0, shaTruthy, putMessage]
  · intro sha stored hsome hne
    constructor <;> simp [getFileSha_repoGet, hsome, shaTruthy, hne, putMessage]
  · intro h0 hne
    refine ⟨⟨"chore: update summary for \"" ++ ps.title ++ "\"", enc, "main",
        some (mkSha enc)⟩, ?_, rfl, rfl, rfl⟩
    simp [publishRequest, henc, getFileSha_repoGet, repoPut, shaTruthy, hne, putMessage]

/-- C5 witness: the conditional-write contract at an all-ASCII artifact
over the empty repository. -/
theorem publish_conditional_create_or_update_witness :
    isLatin1 (serializeArtifact psPlain) = true ∧
    (∃ body : PutBody,
      publishRequest (repoGet emptyRepo) psPlain = some (artifactPath psPlain, body) ∧
      btoa (serializeArtifact psPlain) = some body.content ∧
      body.branch = "main" ∧
      (emptyRepo (artifactPath psPlain) = none →
        body.sha = none ∧
        body.message = "feat: add summary for \"" ++ psPlain.title ++ "\"") ∧
      (∀ sha stored, emptyRepo (artifactPath psPlain) = some (sha, stored) → sha ≠ "" →
        body.sha = some sha ∧
        body.message = "chore: update summary for \"" ++ psPlain.title ++ "\"") ∧
      (emptyRepo (artifactPath psPlain) = none → (fun _ => "newsha") body.content ≠ "" →
        ∃ body2 : PutBody,
          publishRequest
              (repoGet (repoPut (fun _ => "newsha") emptyRepo (artifactPath psPlain) body))
              psPlain =
            some (artifactPath psPlain, body2) ∧
          body2.sha = some ((fun _ => "newsha") body.content) ∧
          body2.message = "chore: update summary for \"" ++ psPlain.title ++ "\"" ∧
          body2.content = body.content)) :=
  ⟨by decide, publish_conditional_create_or_update emptyRepo (fun _ => "newsha") psPlain (by decide)⟩

/-- C6 counterexample: in a run whose only record's summarization exhausts
its retries, the orchestrator substitutes nothing — the record yields no
artifact at all (no write request, no ledger call) and is counted as a
failure, contradicting "every item still receives a summary". -/
theorem orchestrator_no_fallback_counterexample :
    ((generateSummary (worldNoSummary.ai postA) true).1).isOk = false ∧
    scheduled envAllSet worldNoSummary =
      { successCount := 0, failureCount := 1,
        items := [{ succeeded := false, putRequest := none, putOk := false,
                    markCall := none, markOk := false }], fatal := none } :=
  ⟨by decide, by decide⟩

/-- C6 (amended): the deterministic per-item fallback substitution lives in
the Summarizer module's batch helper `generateSummaries` — which keeps
every item of its output populated, substituting the fixed fallback text
when `generateSummary` exhausts its retries — and not in the Orchestrator,
which catches the propagated error and records a plain failure with no
substitute summary. -/
theorem fallback_in_summarizer_not_orchestrator :
    (∀ (backends : BlogPost → Nat → AIResult) (incl : Bool) (posts : List BlogPost),
      (generateSummaries backends incl posts).length = posts.length) ∧
    (∀ (backends : BlogPost → Nat → AIResult) (incl : Bool) (posts : List BlogPost) (i : Nat),
      i < posts.length →
      ((generateSummary (backends (posts.getD i defaultPost)) incl).1).isOk = false →
      (generateSummaries backends incl posts).getD i "" = fallbackSummaryText) ∧
    (∀ (w : World) (kv : Bool) (post : BlogPost),
      ((generateSummary (w.ai post) true).1).isOk = false →
      processPost w kv post =
        { succeeded := false, putRequest := none, putOk := false,
          markCall := none, markOk := false }) := by
  refine ⟨?_, ?_, ?_⟩
  · intro backends incl posts
    simp [generateSummaries]
  · intro backends incl posts
    induction posts with
    | nil => intro i h; simp at h
    | cons p ps ih =>
      intro i hlen hfail
      cases i with
      | zero =>
        rcases hg : (generateSummary (backends p) incl).1 with e | s
        · simp [generateSummaries, hg]
        · simp only [List.getD_cons_zero] at hfail
          rw [hg] at hfail
          simp [Except.isOk, Except.toBool] at hfail
      | succ n =>
        have h1 : n < ps.length := by simpa using hlen
        have hgen : generateSummaries backends incl (p :: ps) =
            (match (generateSummary (backends p) incl).1 with
             | .ok s => s
             | .error _ => fallbackSummaryText) :: generateSummaries backends incl ps := rfl
        rw [hgen, List.getD_cons_succ]
        exact ih n h1 (by simpa using hfail)
  · intro w kv post h
    rcases hg : (generateSummary (w.ai post) true).1 with e | s
    · simp [processPost, hg]
    · rw [hg] at h
      simp [Except.isOk, Except.toBool] at h

/-- C6 amended-claim witness: a one-post batch whose backend always throws
gets the fixed fallback text from `generateSummaries`. -/
theorem fallback_in_summarizer_witness :
    (0 < [postA].length ∧
      ((generateSummary ((fun (_ : BlogPost) (_ : Nat) => AIResult.thrown "down")
        ([postA].getD 0 defaultPost)) true).1).isOk = false) ∧
    (generateSummaries (fun _ _ => .thrown "down") true [postA]).getD 0 "" =
      fallbackSummaryText :=
  ⟨⟨by decide, by decide⟩,
   fallback_in_summarizer_not_orchestrator.2.1 (fun _ _ => .thrown "down") true [postA] 0
     (by decide) (by decide)⟩

/-- C8: the parse of a whole document is the independent parse of its item
blocks with failing blocks dropped (no exception escapes — the result is
total); an item whose extracted title, link, or guid is empty is rejected
with the required-fields error; and the concrete three-item document with
a malformed second item yields exactly its two well-formed records, in
document order. -/
theorem parser_resilience_and_required_fields :
    (∀ xmlText : Chars, parseRSSFeed xmlText =
      (extractItemBlocks xmlText).filterMap (fun itemXml => (parseRSSItem itemXml).toOption)) ∧
    (∀ itemXml : Chars,
      (extractCDATA itemXml "title".data = [] ∨ extractText itemXml "link".data = [] ∨
        extractText itemXml "guid".data = []) →
      parseRSSItem itemXml = .error "Missing required fields in RSS item") ∧
    ((extractItemBlocks feedDoc3.data).length = 3 ∧
      parseRSSFeed feedDoc3.data = [post1, post3]) := by
  refine ⟨fun _ => rfl, ?_, by decide, by decide⟩
  intro itemXml h
  rcases h with h | h | h <;> simp [parseRSSItem, h]

/-- C8 witness: the malformed item of `feedDoc3` (no guid element) is
rejected with the required-fields error. -/
theorem parser_required_fields_witness :
    parseRSSItem "<title><![CDATA[Post Two]]></title><link>https://blog.cloudflare.com/post-two/</link><pubDate>Tue, 02 Jan 2024</pubDate>".data =
      .error "Missing required fields in RSS item" :=
  parser_resilience_and_required_fields.2.1 _ (Or.inr (Or.inr (by decide)))

end Autoblog
